import Mathlib

/-!
Verification development for the mission-control-backend inventory
discovery-and-reconciliation engine.

The definitions below are a shallow embedding of the repository's
TypeScript source:
* `src/connectors/proxmox.ts` — Proxmox connector (deterministic id
  derivation, LXC network-address parsing, VM/LXC conversion).
* `src/db/inventory.ts` — host/workload queries, create/update
  statements and `refreshInventory`.
* `src/db/client.ts` — the transaction wrapper (modelled through the
  effect its pool-level helpers have on visible state).
* `src/api/routes/inventory.ts` — UUID validation, the id-detail
  routes, and the `syncInventory` handler.
* `src/index.ts` — the interval scheduler in `startServer`.

Machine integers are modelled as `Nat` with explicit `% 2 ^ 32`
wrapping where the source relies on 32-bit arithmetic (SHA-1).
Timestamps are opaque `Nat` clock values supplied by the caller.
-/

namespace MissionControl

/-! ## Identity assigner: `ProxmoxConnector.getDeterministicId`

The source computes `crypto.createHash('sha1').update(seed).digest()`,
takes the first 16 bytes, fixes the UUID version/variant bits, and
renders `8-4-4-4-12` lowercase hex.  SHA-1 is implemented here from
FIPS 180-4 over byte lists; bytes are `Nat` values kept below 256 by
construction. -/

/-- Wrap a natural number to 32 bits, as JS/Node hashing arithmetic does. -/
def w32 (n : Nat) : Nat := n % 4294967296

/-- Rotate a 32-bit word left by `s` bits. -/
def rotl (s n : Nat) : Nat := w32 ((n <<< s) ||| (n >>> (32 - s)))

/-- UTF-8 encoding of one scalar value (Node's default `update` encoding). -/
def utf8Char (c : Char) : List Nat :=
  let u := c.toNat
  if u < 128 then [u]
  else if u < 2048 then [192 + u / 64, 128 + u % 64]
  else if u < 65536 then [224 + u / 4096, 128 + u / 64 % 64, 128 + u % 64]
  else [240 + u / 262144, 128 + u / 4096 % 64, 128 + u / 64 % 64, 128 + u % 64]

/-- UTF-8 encode a string to its byte list. -/
def utf8Encode (s : String) : List Nat :=
  (s.data.map utf8Char).foldr (· ++ ·) []

/-- Split a list into chunks of `n` elements (`fuel` bounds the recursion). -/
def chunksGo (n : Nat) : Nat → List Nat → List (List Nat)
  | 0, _ => []
  | _ + 1, [] => []
  | fuel + 1, l => l.take n :: chunksGo n fuel (l.drop n)

/-- Split a byte list into chunks of `n` bytes. -/
def chunks (n : Nat) (l : List Nat) : List (List Nat) := chunksGo n l.length l

/-- Big-endian 32-bit word from (up to) four bytes. -/
def bytesToWord (bs : List Nat) : Nat :=
  bs.getD 0 0 * 16777216 + bs.getD 1 0 * 65536 + bs.getD 2 0 * 256 + bs.getD 3 0

/-- A 64-byte block as sixteen big-endian words. -/
def toWords (block : List Nat) : List Nat := (chunks 4 block).map bytesToWord

/-- Extend the 16-word schedule by `n` further words (W[t] for t ≥ 16). -/
def extendSchedule : Nat → List Nat → List Nat
  | 0, ws => ws
  | n + 1, ws =>
      let L := ws.length
      extendSchedule n
        (ws ++ [rotl 1 (ws.getD (L - 3) 0 ^^^ ws.getD (L - 8) 0 ^^^
          ws.getD (L - 14) 0 ^^^ ws.getD (L - 16) 0)])

/-- SHA-1 round function f_t. -/
def sha1F (t b c d : Nat) : Nat :=
  if t < 20 then (b &&& c) ||| ((b ^^^ 4294967295) &&& d)
  else if t < 40 then b ^^^ c ^^^ d
  else if t < 60 then (b &&& c) ||| (b &&& d) ||| (c &&& d)
  else b ^^^ c ^^^ d

/-- SHA-1 round constant K_t. -/
def sha1K (t : Nat) : Nat :=
  if t < 20 then 1518500249
  else if t < 40 then 1859775393
  else if t < 60 then 2400959708
  else 3395469782

/-- Run the 80 SHA-1 rounds over the schedule words. -/
def sha1Rounds : Nat → List Nat → Nat × Nat × Nat × Nat × Nat → Nat × Nat × Nat × Nat × Nat
  | _, [], st => st
  | t, w :: ws, (a, b, c, d, e) =>
      sha1Rounds (t + 1) ws (w32 (rotl 5 a + sha1F t b c d + e + sha1K t + w), a, rotl 30 b, c, d)

/-- The five SHA-1 chaining words. -/
structure Sha1State where
  h0 : Nat
  h1 : Nat
  h2 : Nat
  h3 : Nat
  h4 : Nat
deriving DecidableEq, Repr

/-- SHA-1 initial chaining values. -/
def initSha1 : Sha1State := ⟨1732584193, 4023233417, 2562383102, 271733878, 3285377520⟩

/-- Compress one 64-byte block into the chaining state. -/
def sha1Block (st : Sha1State) (block : List Nat) : Sha1State :=
  let r := sha1Rounds 0 (extendSchedule 64 (toWords block)) (st.h0, st.h1, st.h2, st.h3, st.h4)
  ⟨w32 (st.h0 + r.1), w32 (st.h1 + r.2.1), w32 (st.h2 + r.2.2.1),
   w32 (st.h3 + r.2.2.2.1), w32 (st.h4 + r.2.2.2.2)⟩

/-- The message length in bits, as eight big-endian bytes. -/
def lenBytes64 (n : Nat) : List Nat :=
  [n / 72057594037927936 % 256, n / 281474976710656 % 256, n / 1099511627776 % 256,
   n / 4294967296 % 256, n / 16777216 % 256, n / 65536 % 256, n / 256 % 256, n % 256]

/-- FIPS 180-4 padding: `0x80`, zeros to 56 mod 64, then the 64-bit bit length. -/
def padMessage (msg : List Nat) : List Nat :=
  let rem := (msg.length + 9) % 64
  let zeros := if rem = 0 then 0 else 64 - rem
  msg ++ [128] ++ List.replicate zeros 0 ++ lenBytes64 (8 * msg.length)

/-- Final SHA-1 chaining state of a byte message. -/
def sha1State (msg : List Nat) : Sha1State :=
  (chunks 64 (padMessage msg)).foldl sha1Block initSha1

/-- Serialize one chaining word as four big-endian bytes. -/
def wordBytes (w : Nat) : List Nat :=
  [w / 16777216 % 256, w / 65536 % 256, w / 256 % 256, w % 256]

/-- The 20-byte SHA-1 digest of a chaining state. -/
def sha1Digest (st : Sha1State) : List Nat :=
  wordBytes st.h0 ++ wordBytes st.h1 ++ wordBytes st.h2 ++ wordBytes st.h3 ++ wordBytes st.h4

/-- SHA-1 digest of a byte message. -/
def sha1 (msg : List Nat) : List Nat := sha1Digest (sha1State msg)

/-- The sixteen lowercase hex digit characters. -/
def hexDigits : List Char := "0123456789abcdef".data

/-- Lowercase hex digit of a nibble (out-of-range values fall back to '0'). -/
def hexDigit (n : Nat) : Char := hexDigits.getD n '0'

/-- Buffer.toString('hex'): two lowercase hex digits per byte. -/
def bytesToHex : List Nat → List Char
  | [] => []
  | b :: bs => hexDigit (b / 16) :: hexDigit (b % 16) :: bytesToHex bs

/-- Render 32 hex chars in the `8-4-4-4-12` dashed UUID layout, as the
template literal in `getDeterministicId` does with `hex.slice`. -/
def formatUuid (hex : List Char) : String :=
  String.mk (hex.take 8 ++ '-' :: (hex.drop 8).take 4 ++ '-' :: (hex.drop 12).take 4 ++
    '-' :: (hex.drop 16).take 4 ++ '-' :: hex.drop 20)

/-- `ProxmoxConnector.getDeterministicId`: SHA-1 of the seed, truncated to
16 bytes, with `bytes[6] = (bytes[6] & 0x0f) | 0x50` and
`bytes[8] = (bytes[8] & 0x3f) | 0x80`, rendered as a dashed UUID string. -/
def getDeterministicId (seed : String) : String :=
  let hash := sha1 (utf8Encode seed)
  let bytes := hash.take 16
  let bytes1 := bytes.set 6 ((bytes.getD 6 0 &&& 15) ||| 80)
  let bytes2 := bytes1.set 8 ((bytes1.getD 8 0 &&& 63) ||| 128)
  formatUuid (bytesToHex bytes2)

/-! ## Canonical data model (`src/db/types.ts`)

`Host` and `Workload` mirror the interfaces in `src/db/types.ts`.
JSON bags (`metadata`, `spec`) are modelled by the tagged union `JVal`
covering exactly the value shapes the connectors produce (strings,
numbers-or-null, nested string maps); `addresses` is a string map.
`Date` timestamps are opaque `Nat` clock values.  The `namespace`
field is spelled `nspace` because `namespace` is a Lean keyword. -/

inductive HostStatus where
  | online
  | offline
  | degraded
  | unknown
deriving DecidableEq, Repr

inductive WorkloadStatus where
  | running
  | stopped
  | pending
  | failed
  | unknown
deriving DecidableEq, Repr

inductive HealthStatus where
  | healthy
  | unhealthy
  | unknown
deriving DecidableEq, Repr

/-- JSON values appearing in the connectors' `metadata`/`spec` bags:
a string, a number-or-null (`lxc.cpu ?? null`), or a string map. -/
inductive JVal where
  | s (v : String)
  | n (v : Option Int)
  | m (v : List (String × String))
deriving DecidableEq, Repr

/-- Host record (`src/db/types.ts`).  `type` is kept as a plain string
variant tag; `nspace` stands for the source's `namespace`. -/
structure Host where
  id : String
  name : String
  type : String
  cluster : Option String
  addresses : List (String × String)
  status : HostStatus
  last_seen_at : Option Nat
  tags : List String
  metadata : List (String × JVal)
  created_at : Nat
  updated_at : Nat
deriving DecidableEq, Repr

/-- Workload record (`src/db/types.ts`). -/
structure Workload where
  id : String
  name : String
  type : String
  host_id : Option String
  status : WorkloadStatus
  nspace : Option String
  spec : List (String × JVal)
  health_status : HealthStatus
  last_updated_at : Option Nat
  metadata : List (String × JVal)
  created_at : Nat
  updated_at : Nat
deriving DecidableEq, Repr

/-- A discovery snapshot: `{ hosts, workloads }` as returned by
`discoverAll` (`Inventory` in `src/connectors/proxmox.ts`). -/
structure Inventory where
  hosts : List Host
  workloads : List Workload
deriving DecidableEq, Repr

/-! ## JS string helpers

The connector manipulates strings with `split`, `trim`,
`toLowerCase` and truthiness checks.  These are modelled structurally
over `String.data` so that every operation reduces in the kernel. -/

/-- JS `String.prototype.split` with a single-character separator. -/
def splitOnChar (sep : Char) : List Char → List (List Char)
  | [] => [[]]
  | c :: rest =>
      let r := splitOnChar sep rest
      if c == sep then [] :: r
      else
        match r with
        | [] => [[c]]
        | g :: gs => (c :: g) :: gs

/-- JS `s.split(sep)` for a one-character separator string. -/
def jsSplit (sep : Char) (s : String) : List String :=
  (splitOnChar sep s.data).map String.mk

/-- Whitespace characters trimmed by JS `trim` (ASCII subset). -/
def jsSpaceChars : List Char := [' ', '\t', '\n', '\r']

/-- Membership in the JS whitespace set. -/
def isJsSpace (c : Char) : Bool := jsSpaceChars.contains c

/-- JS `s.trim()`. -/
def jsTrim (s : String) : String :=
  String.mk (((s.data.dropWhile isJsSpace).reverse.dropWhile isJsSpace).reverse)

/-- JS `s.toLowerCase()` (ASCII letters, which is all the source compares). -/
def jsToLower (s : String) : String := String.mk (s.data.map Char.toLower)

/-- JS `a || b` on an optional string: `b` when `a` is absent or empty. -/
def jsOrElse (a : Option String) (b : String) : String :=
  match a with
  | none => b
  | some v => if v == "" then b else v

/-! ## Proxmox connector (`src/connectors/proxmox.ts`) -/

/-- Proxmox LXC/VM listing entry: `vmid`, optional `name`/`status`, and
the optional numeric resource fields carried into `spec`. -/
structure ProxmoxGuest where
  vmid : Nat
  name : Option String
  status : Option String
  cpu : Option Int
  maxcpu : Option Int
  mem : Option Int
  maxmem : Option Int
  disk : Option Int
  maxdisk : Option Int
  uptime : Option Int
deriving DecidableEq, Repr

/-- First-match lookup in an association list (a JS object read; the
source objects have no duplicate keys). -/
def lookupAssoc : List (String × String) → String → Option String
  | [], _ => none
  | (k, v) :: rest, key => if k == key then some v else lookupAssoc rest key

/-- Last-match lookup: JS object assignment `configMap[key] = value`
lets the most recent assignment win, so reads see the last pair. -/
def lookupLast (l : List (String × String)) (key : String) : Option String :=
  lookupAssoc l.reverse key

/-- The regex test `/^net\d+$/.test(key)`. -/
def isNetKey (s : String) : Bool :=
  match s.data with
  | 'n' :: 'e' :: 't' :: rest => !rest.isEmpty && rest.all Char.isDigit
  | _ => false

/-- Parse `"name=eth0,bridge=vmbr0,ip=192.168.1.100/24"` into key/value
pairs: split on `,`, split each part on `=`, keep pairs whose raw key
and value are both non-empty, trimming both. -/
def parseKv (s : String) : List (String × String) :=
  (jsSplit ',' s).filterMap fun part =>
    let kv := jsSplit '=' part
    match kv.get? 0, kv.get? 1 with
    | some key, some value =>
        if key == "" || value == "" then none else some (jsTrim key, jsTrim value)
    | _, _ => none

/-- `ip.split('/')[0]`: strip a CIDR suffix. -/
def cidrStrip (ip : String) : String := (jsSplit '/' ip).headD ""

/-- `net0` populates the `lan` key; other interfaces keep their name. -/
def targetKey (netKey : String) : String := if netKey == "net0" then "lan" else netKey

/-- The address contribution of one `netN` config entry: look the key up,
parse its comma list, read `ip`, skip missing/empty/DHCP values, strip
the CIDR suffix, and map `net0` to `lan`. -/
def netEntry (config : List (String × String)) (netKey : String) : Option (String × String) :=
  match lookupAssoc config netKey with
  | none => none
  | some netConfig =>
      match lookupLast (parseKv netConfig) "ip" with
      | none => none
      | some ip =>
          if ip == "" || jsToLower ip == "dhcp" then none
          else some (targetKey netKey, cidrStrip ip)

/-- `ProxmoxConnector.parseNetworkAddresses`: a null config yields no
addresses; otherwise the `netN` keys are sorted and each contributes
its static address.  (The JS object literal has no duplicate keys, so
collecting per sorted key matches the source's object writes.) -/
def parseNetworkAddresses (config : Option (List (String × String))) : List (String × String) :=
  match config with
  | none => []
  | some cfg =>
      (List.insertionSort (· < ·) ((cfg.map Prod.fst).filter isNetKey)).filterMap (netEntry cfg)

/-- `ProxmoxConnector.mapWorkloadStatus`. -/
def mapWorkloadStatus (status : Option String) : WorkloadStatus :=
  match status with
  | none => .unknown
  | some s =>
      if s == "running" then .running
      else if s == "stopped" then .stopped
      else if s == "paused" then .stopped
      else if s == "suspended" then .stopped
      else .unknown

/-- `ProxmoxConnector.mapNodeStatus`. -/
def mapNodeStatus (status : Option String) : HostStatus :=
  match status with
  | none => .unknown
  | some s =>
      if s == "online" then .online
      else if s == "offline" then .offline
      else .unknown

/-- `ProxmoxConnector.convertVMToWorkload`. -/
def convertVMToWorkload (vm : ProxmoxGuest) (node : String) (hostId : String)
    (now : Nat) : Workload :=
  { id := getDeterministicId ("proxmox-vm:" ++ node ++ ":" ++ toString vm.vmid)
    name := jsOrElse vm.name ("vm-" ++ toString vm.vmid)
    type := "proxmox-vm"
    host_id := some hostId
    status := mapWorkloadStatus vm.status
    nspace := some node
    spec := [("vmid", .n (some (vm.vmid : Int))), ("node", .s node), ("cpu", .n vm.cpu),
      ("maxcpu", .n vm.maxcpu), ("mem", .n vm.mem), ("maxmem", .n vm.maxmem),
      ("disk", .n vm.disk), ("maxdisk", .n vm.maxdisk), ("uptime", .n vm.uptime)]
    health_status := if vm.status == some "running" then .healthy else .unknown
    last_updated_at := some now
    metadata := [("node", .s node)]
    created_at := now
    updated_at := now }

/-- `ProxmoxConnector.convertLXCToWorkload`.  The JS step that copies
`addresses` into `addressesJson` dropping `undefined` values is the
identity here, because `parseNetworkAddresses` only returns present
entries. -/
def convertLXCToWorkload (lxc : ProxmoxGuest) (node : String) (hostId : String)
    (config : Option (List (String × String))) (now : Nat) : Workload :=
  let addressesJson := parseNetworkAddresses config
  { id := getDeterministicId ("proxmox-lxc:" ++ node ++ ":" ++ toString lxc.vmid)
    name := jsOrElse lxc.name ("lxc-" ++ toString lxc.vmid)
    type := "proxmox-lxc"
    host_id := some hostId
    status := mapWorkloadStatus lxc.status
    nspace := some node
    spec := [("vmid", .n (some (lxc.vmid : Int))), ("node", .s node), ("cpu", .n lxc.cpu),
      ("maxcpu", .n lxc.maxcpu), ("mem", .n lxc.mem), ("maxmem", .n lxc.maxmem),
      ("disk", .n lxc.disk), ("maxdisk", .n lxc.maxdisk), ("uptime", .n lxc.uptime),
      ("addresses", .m addressesJson)]
    health_status := if lxc.status == some "running" then .healthy else .unknown
    last_updated_at := some now
    metadata := [("node", .s node)]
    created_at := now
    updated_at := now }

/-! ## Persisted store and `src/db/inventory.ts`

The `hosts`/`workloads` tables are lists of rows.  `src/db/schema.sql`
is not part of the provided sources; per the spec the `id` column is
the primary key, and since `createHost`/`createWorkload` omit `id`
(and `created_at`/`updated_at`) from their column lists, those values
come from column defaults.  Modelled from the spec: the id default is
a freshly generated value, represented by a per-store counter rendered
as `dbgen-N` (a fresh generated UUID never equals any other row id or
any connector-derived id); the timestamp defaults are the current
clock `now`. -/

structure Store where
  hosts : List Host
  workloads : List Workload
  nextGen : Nat
deriving DecidableEq, Repr

/-- The value the id column default produces for the `n`-th insert that
omits `id`.  Modelled from the spec: stands for a freshly generated
UUID, distinct from every previously assigned id. -/
def dbGenId (n : Nat) : String := "dbgen-" ++ toString n

namespace Inv

/-- `getHostById` (`SELECT * FROM hosts WHERE id = $1`). -/
def getHostById (st : Store) (id : String) : Option Host :=
  st.hosts.find? (fun h => h.id == id)

/-- `getWorkloadById` (`SELECT * FROM workloads WHERE id = $1`). -/
def getWorkloadById (st : Store) (id : String) : Option Workload :=
  st.workloads.find? (fun w => w.id == id)

/-- `createHost`: `INSERT INTO hosts (name, type, cluster, addresses,
status, last_seen_at, tags, metadata) VALUES …` — the `id` column is
not in the list, so the inserted row carries the column-default id,
not `host.id`. -/
def createHost (st : Store) (host : Host) (now : Nat) : Store :=
  let row : Host :=
    { host with id := dbGenId st.nextGen, created_at := now, updated_at := now }
  { st with hosts := st.hosts ++ [row], nextGen := st.nextGen + 1 }

/-- `createWorkload`: `INSERT INTO workloads (name, type, host_id,
status, namespace, spec, health_status, last_updated_at, metadata)
VALUES …` — again without the `id` column. -/
def createWorkload (st : Store) (workload : Workload) (now : Nat) : Store :=
  let row : Workload :=
    { workload with id := dbGenId st.nextGen, created_at := now, updated_at := now }
  { st with workloads := st.workloads ++ [row], nextGen := st.nextGen + 1 }

/-- `Partial<Host>` as passed to `updateHost`: exactly the six fields
the function builds SET clauses for (`type` and `cluster` have no
branch in the source). -/
structure HostUpdates where
  name : Option String
  status : Option HostStatus
  last_seen_at : Option (Option Nat)
  addresses : Option (List (String × String))
  metadata : Option (List (String × JVal))
  tags : Option (List String)
deriving DecidableEq, Repr

/-- The full-record update `updateHost(host.id, host)` performed by the
reconciliation loop: every optional field present. -/
def hostToUpdates (h : Host) : HostUpdates :=
  { name := some h.name, status := some h.status, last_seen_at := some h.last_seen_at
    addresses := some h.addresses, metadata := some h.metadata, tags := some h.tags }

/-- Apply `updateHost`'s SET clauses to one row: each defined field is
replaced, `updated_at = NOW()`, everything else untouched. -/
def applyHostUpdates (u : HostUpdates) (now : Nat) (r : Host) : Host :=
  { r with
    name := u.name.getD r.name
    status := u.status.getD r.status
    last_seen_at := u.last_seen_at.getD r.last_seen_at
    addresses := u.addresses.getD r.addresses
    metadata := u.metadata.getD r.metadata
    tags := u.tags.getD r.tags
    updated_at := now }

/-- `updateHost`: `UPDATE hosts SET … WHERE id = $1`. -/
def updateHost (st : Store) (id : String) (u : HostUpdates) (now : Nat) : Store :=
  { st with hosts := st.hosts.map (fun r => if r.id == id then applyHostUpdates u now r else r) }

/-- `Partial<Workload>` as consumed by `updateWorkload`: exactly the
five fields with SET branches (`name`, `type`, `host_id` and
`namespace` have none). -/
structure WorkloadUpdates where
  status : Option WorkloadStatus
  health_status : Option HealthStatus
  spec : Option (List (String × JVal))
  metadata : Option (List (String × JVal))
  last_updated_at : Option (Option Nat)
deriving DecidableEq, Repr

/-- The full-record update `updateWorkload(workload.id, workload)`. -/
def workloadToUpdates (w : Workload) : WorkloadUpdates :=
  { status := some w.status, health_status := some w.health_status, spec := some w.spec
    metadata := some w.metadata, last_updated_at := some w.last_updated_at }

/-- Apply `updateWorkload`'s SET clauses to one row. -/
def applyWorkloadUpdates (u : WorkloadUpdates) (now : Nat) (r : Workload) : Workload :=
  { r with
    status := u.status.getD r.status
    health_status := u.health_status.getD r.health_status
    spec := u.spec.getD r.spec
    metadata := u.metadata.getD r.metadata
    last_updated_at := u.last_updated_at.getD r.last_updated_at
    updated_at := now }

/-- `updateWorkload`: `UPDATE workloads SET … WHERE id = $1`. -/
def updateWorkload (st : Store) (id : String) (u : WorkloadUpdates) (now : Nat) : Store :=
  { st with
    workloads := st.workloads.map (fun r => if r.id == id then applyWorkloadUpdates u now r else r) }

/-- `RefreshStats` from `src/db/inventory.ts`. -/
structure RefreshStats where
  hostsAdded : Nat
  hostsUpdated : Nat
  workloadsAdded : Nat
  workloadsUpdated : Nat
deriving DecidableEq, Repr

/-- Outcome of a reconciliation cycle.  `failed st` reports the store
state visible after an aborted cycle: the helper functions issue their
statements through the pool (`db.queryOne`), not through the
transaction-scoped `_client`, so each statement commits immediately
on its own pooled connection and the wrapper's `ROLLBACK` (issued on
the otherwise idle transaction client) undoes none of them. -/
inductive SyncOutcome where
  | ok (st : Store) (stats : RefreshStats)
  | failed (st : Store)
deriving DecidableEq, Repr

/-- One host iteration of `refreshInventory`'s loop, with an injected
persistence fault: `failOn` marks the discovered ids whose write the
store rejects (the simulated `PersistenceFailure`). -/
def refreshHostStep (failOn : String → Bool) (now : Nat)
    (acc : SyncOutcome) (h : Host) : SyncOutcome :=
  match acc with
  | .failed st => .failed st
  | .ok st stats =>
      if failOn h.id then .failed st
      else
        match getHostById st h.id with
        | some _ =>
            .ok (updateHost st h.id (hostToUpdates h) now)
              { stats with hostsUpdated := stats.hostsUpdated + 1 }
        | none =>
            .ok (createHost st h now) { stats with hostsAdded := stats.hostsAdded + 1 }

/-- One workload iteration of `refreshInventory`'s loop. -/
def refreshWorkloadStep (failOn : String → Bool) (now : Nat)
    (acc : SyncOutcome) (w : Workload) : SyncOutcome :=
  match acc with
  | .failed st => .failed st
  | .ok st stats =>
      if failOn w.id then .failed st
      else
        match getWorkloadById st w.id with
        | some _ =>
            .ok (updateWorkload st w.id (workloadToUpdates w) now)
              { stats with workloadsUpdated := stats.workloadsUpdated + 1 }
        | none =>
            .ok (createWorkload st w now)
              { stats with workloadsAdded := stats.workloadsAdded + 1 }

/-- `refreshInventory`, after discovery: process every discovered host,
then every discovered workload, looking each up by its discovered id
and updating or inserting.  A failing statement aborts the loop and
surfaces the error; the writes already issued stay visible (see
`SyncOutcome`). -/
def refreshInventory (failOn : String → Bool) (inv : Inventory) (st : Store)
    (now : Nat) : SyncOutcome :=
  inv.workloads.foldl (refreshWorkloadStep failOn now)
    (inv.hosts.foldl (refreshHostStep failOn now) (.ok st ⟨0, 0, 0, 0⟩))

/-- Modelled from the spec: `syncDiscoveredInventory` is imported by
`src/index.ts` and `src/api/routes/inventory.ts` from `src/db/inventory`
but its definition is not among the provided sources.  Per spec §4.3 it
upserts each discovered entity by its assigned `id`: insert with
`created_at = updated_at = now` when absent, replace the mutable fields
and bump `updated_at` when present. -/
def syncDiscoveredInventory (inv : Inventory) (st : Store) (now : Nat) :
    Store × RefreshStats :=
  let hostPass :=
    inv.hosts.foldl
      (fun (acc : Store × RefreshStats) h =>
        match getHostById acc.1 h.id with
        | some _ =>
            (updateHost acc.1 h.id (hostToUpdates h) now,
             { acc.2 with hostsUpdated := acc.2.hostsUpdated + 1 })
        | none =>
            ({ acc.1 with
                hosts := acc.1.hosts ++ [{ h with created_at := now, updated_at := now }] },
             { acc.2 with hostsAdded := acc.2.hostsAdded + 1 }))
      (st, ⟨0, 0, 0, 0⟩)
  inv.workloads.foldl
    (fun (acc : Store × RefreshStats) w =>
      match getWorkloadById acc.1 w.id with
      | some _ =>
          (updateWorkload acc.1 w.id (workloadToUpdates w) now,
           { acc.2 with workloadsUpdated := acc.2.workloadsUpdated + 1 })
      | none =>
          ({ acc.1 with
              workloads := acc.1.workloads ++ [{ w with created_at := now, updated_at := now }] },
           { acc.2 with workloadsAdded := acc.2.workloadsAdded + 1 }))
    hostPass

end Inv

/-! ## API routes (`src/api/routes/inventory.ts`) -/

namespace Api

/-- The character class `[0-9a-f]` under the regex's `/i` flag. -/
def isHexChar (c : Char) : Bool :=
  c.isDigit || ('a' ≤ c && c ≤ 'f') || ('A' ≤ c && c ≤ 'F')

/-- What `isValidUUID`'s regex requires of the character at index `i`:
dashes at 8/13/18/23, the literal version digit `4` at 14, a variant
character from `[89ab]` (case-insensitively) at 19, and hex elsewhere. -/
def uuidCharOk (i : Nat) (c : Char) : Bool :=
  if i == 8 || i == 13 || i == 18 || i == 23 then c == '-'
  else if i == 14 then c == '4'
  else if i == 19 then
    c == '8' || c == '9' || c == 'a' || c == 'b' || c == 'A' || c == 'B'
  else isHexChar c

/-- `isValidUUID`: the anchored UUID-v4 regex
`/^[0-9a-f]{8}-[0-9a-f]{4}-4[0-9a-f]{3}-[89ab][0-9a-f]{3}-[0-9a-f]{12}$/i`. -/
def isValidUUID (uuid : String) : Bool :=
  uuid.data.length == 36 &&
    (List.range 36).all (fun i => uuidCharOk i (uuid.data.getD i ' '))

/-- Response of the two id-detail routes, paired with whether the store
was queried at all. -/
inductive IdRouteOutcome (α : Type) where
  | badRequest
  | notFound
  | ok (x : α)
deriving DecidableEq, Repr

/-- `GET /api/v1/inventory/hosts/:id`: 400 before any store access when
the id fails `isValidUUID`; otherwise 404 or the row. -/
def getHostByIdRoute (st : Store) (id : String) : IdRouteOutcome Host × Bool :=
  if !isValidUUID id then (.badRequest, false)
  else
    match Inv.getHostById st id with
    | none => (.notFound, true)
    | some h => (.ok h, true)

/-- `GET /api/v1/inventory/workloads/:id`. -/
def getWorkloadByIdRoute (st : Store) (id : String) : IdRouteOutcome Workload × Bool :=
  if !isValidUUID id then (.badRequest, false)
  else
    match Inv.getWorkloadById st id with
    | none => (.notFound, true)
    | some w => (.ok w, true)

/-- Result of one `discoverAll()` promise: a snapshot, or a rejection
carrying the error message. -/
inductive DiscResult where
  | ok (inv : Inventory)
  | err (msg : String)
deriving DecidableEq, Repr

/-- Response of `POST /api/v1/inventory/sync`, with the store state
after the handler ran. -/
inductive SyncRouteOutcome where
  | ok (hostsCount workloadsCount : Nat) (st : Store)
  | errorResp (msg : String) (st : Store)
deriving DecidableEq, Repr

/-- `syncInventory`: `Promise.all` over the Kubernetes discovery and the
Proxmox discovery.  `proxmoxAvailable` captures `existingProxmoxConnector
?? shouldInitializeProxmox()`; when it is false the Proxmox slot resolves
to `{hosts: [], workloads: []}` without running a connector.  A rejection
of either promise rejects the `Promise.all`, so the catch block answers
500 and `syncDiscoveredInventory` is never reached (the Kubernetes
promise is listed first, so its rejection is the one reported when both
fail). -/
def syncInventoryRoute (k8s : DiscResult) (proxmoxAvailable : Bool) (proxmox : DiscResult)
    (st : Store) (now : Nat) : SyncRouteOutcome :=
  match k8s with
  | .err msg => .errorResp msg st
  | .ok k8sInv =>
      let proxmoxOutcome : DiscResult :=
        if proxmoxAvailable then proxmox else .ok ⟨[], []⟩
      match proxmoxOutcome with
      | .err msg => .errorResp msg st
      | .ok proxmoxInv =>
          let merged : Inventory :=
            ⟨k8sInv.hosts ++ proxmoxInv.hosts, k8sInv.workloads ++ proxmoxInv.workloads⟩
          let result := Inv.syncDiscoveredInventory merged st now
          .ok merged.hosts.length merged.workloads.length result.1

end Api

/-! ## Scheduler (`startServer` in `src/index.ts`)

`startServer` installs `setInterval(async () => { … discover … sync … },
syncIntervalMs)` only when `syncIntervalMs > 0`; the interval callback
and the `POST /sync` handler each start a cycle unconditionally — the
module holds no "cycle running" flag, queue, or busy rejection.  The
model counts in-flight cycles: a timer tick (which only exists when the
timer was installed) and an on-demand API call each start one, and a
completion retires one. -/

namespace Sched

/-- `INVENTORY_SYNC_INTERVAL_MS` after `Number(raw || 60000)`: an unset
or empty variable falls back to 60000. -/
def syncIntervalFromEnv (env : Option Int) : Int :=
  match env with
  | none => 60000
  | some v => v

/-- The installed timer: `if (syncIntervalMs > 0) setInterval(…,
syncIntervalMs)`. -/
def timerPeriod (syncIntervalMs : Int) : Option Int :=
  if syncIntervalMs > 0 then some syncIntervalMs else none

/-- Scheduler events: a timer tick, an on-demand `POST /sync` call, and
the completion of some running cycle. -/
inductive Event where
  | tick
  | apiSync
  | finish
deriving DecidableEq, Repr

/-- Effect of one event on the number of concurrently running cycles. -/
def step (syncIntervalMs : Int) (running : Nat) : Event → Nat
  | .tick => if (timerPeriod syncIntervalMs).isSome then running + 1 else running
  | .apiSync => running + 1
  | .finish => running - 1

/-- Number of cycles in flight after a trace of events, starting idle. -/
def run (syncIntervalMs : Int) (events : List Event) : Nat :=
  events.foldl (step syncIntervalMs) 0

end Sched

/-! ## Concrete fixtures used by the closed evaluation theorems -/

/-- The empty store. -/
def store0 : Store := ⟨[], [], 0⟩

/-- A discovered cluster-node host carrying its assigner-provided id. -/
def nodeHost : Host :=
  { id := "11111111-1111-4111-8111-111111111111", name := "node-1", type := "k8s-node"
    cluster := some "homelab", addresses := [("lan", "192.168.1.10")], status := .online
    last_seen_at := some 5, tags := ["kubernetes"], metadata := [("cpu", .n (some 4))]
    created_at := 5, updated_at := 5 }

/-- A second discovered host, used as the entity whose write fails. -/
def nodeHostB : Host :=
  { nodeHost with id := "22222222-2222-4222-8222-222222222222", name := "node-2" }

/-- A discovered Proxmox host for the source-isolation scenario. -/
def pveHost : Host :=
  { id := "55555555-5555-4555-8555-555555555555", name := "pve", type := "proxmox-node"
    cluster := some "proxmox.local", addresses := [], status := .online
    last_seen_at := some 5, tags := ["proxmox"], metadata := []
    created_at := 5, updated_at := 5 }

/-- A discovered workload fixture. -/
def plexWorkload : Workload :=
  { id := "66666666-6666-4666-8666-666666666666", name := "plex", type := "proxmox-vm"
    host_id := some pveHost.id, status := .running, nspace := some "pve"
    spec := [("vmid", .n (some 101))], health_status := .healthy
    last_updated_at := some 5, metadata := [("node", .s "pve")]
    created_at := 5, updated_at := 5 }

/-- The same workload re-discovered later with a changed name, status and
spec — the shape of a second reconciliation sighting. -/
def plexWorkloadRenamed : Workload :=
  { plexWorkload with
    name := "plex-media"
    status := .stopped
    spec := [("vmid", .n (some 101)), ("node", .s "pve")]
    health_status := .unknown
    last_updated_at := some 9 }

/-- A Proxmox guest reported as running. -/
def runningGuest : ProxmoxGuest :=
  { vmid := 101, name := some "plex", status := some "running", cpu := some 1
    maxcpu := some 4, mem := some 2048, maxmem := some 4096, disk := some 10
    maxdisk := some 100, uptime := some 3600 }

/-- A Proxmox guest reported as stopped. -/
def stoppedGuest : ProxmoxGuest :=
  { runningGuest with vmid := 201, name := some "pihole", status := some "stopped" }

/-- String positions of a dashed UUID rendering that must hold hex
digits (every index except the dashes at 8, 13, 18 and 23). -/
def hexPositions : List Nat :=
  [0, 1, 2, 3, 4, 5, 6, 7, 9, 10, 11, 12, 14, 15, 16, 17,
   19, 20, 21, 22, 24, 25, 26, 27, 28, 29, 30, 31, 32, 33, 34, 35]

/-- Lowercase hex digit predicate, following the spec's words for a
"syntactically valid UUID-shaped value" rendered in lowercase hex. -/
def isHexLower (c : Char) : Bool := c.isDigit || ('a' ≤ c && c ≤ 'f')

/-- The row `updateWorkload` actually produces when the re-discovered
`plexWorkloadRenamed` hits the persisted `plexWorkload` row: status,
health, spec and `last_updated_at` are replaced and `updated_at` is
bumped, but the name keeps its old value. -/
def plexWorkloadAfterUpdate : Workload :=
  { plexWorkload with
    status := .stopped
    health_status := .unknown
    spec := [("vmid", .n (some 101)), ("node", .s "pve")]
    last_updated_at := some 9
    updated_at := 9 }

/-- The 36 characters `getDeterministicId` renders from the first four
chaining words of the SHA-1 state (bytes 0–15 of the digest, with byte 6
version-masked and byte 8 variant-masked).  This is the unfolded form of
the definition, used to reason about individual character positions. -/
def uuidCharsOfWords (w0 w1 w2 w3 : Nat) : List Char :=
  [hexDigit (w0 / 16777216 % 256 / 16), hexDigit (w0 / 16777216 % 256 % 16),
   hexDigit (w0 / 65536 % 256 / 16), hexDigit (w0 / 65536 % 256 % 16),
   hexDigit (w0 / 256 % 256 / 16), hexDigit (w0 / 256 % 256 % 16),
   hexDigit (w0 % 256 / 16), hexDigit (w0 % 256 % 16),
   '-',
   hexDigit (w1 / 16777216 % 256 / 16), hexDigit (w1 / 16777216 % 256 % 16),
   hexDigit (w1 / 65536 % 256 / 16), hexDigit (w1 / 65536 % 256 % 16),
   '-',
   hexDigit (((w1 / 256 % 256 &&& 15) ||| 80) / 16),
   hexDigit (((w1 / 256 % 256 &&& 15) ||| 80) % 16),
   hexDigit (w1 % 256 / 16), hexDigit (w1 % 256 % 16),
   '-',
   hexDigit (((w2 / 16777216 % 256 &&& 63) ||| 128) / 16),
   hexDigit (((w2 / 16777216 % 256 &&& 63) ||| 128) % 16),
   hexDigit (w2 / 65536 % 256 / 16), hexDigit (w2 / 65536 % 256 % 16),
   '-',
   hexDigit (w2 / 256 % 256 / 16), hexDigit (w2 / 256 % 256 % 16),
   hexDigit (w2 % 256 / 16), hexDigit (w2 % 256 % 16),
   hexDigit (w3 / 16777216 % 256 / 16), hexDigit (w3 / 16777216 % 256 % 16),
   hexDigit (w3 / 65536 % 256 / 16), hexDigit (w3 / 65536 % 256 % 16),
   hexDigit (w3 / 256 % 256 / 16), hexDigit (w3 / 256 % 256 % 16),
   hexDigit (w3 % 256 / 16), hexDigit (w3 % 256 % 16)]

/-- Store component of a cycle outcome (the table state a reader sees). -/
def outcomeStore : Inv.SyncOutcome → Store
  | .ok st _ => st
  | .failed st => st

/-- Stats component of a successful cycle outcome. -/
def outcomeStats : Inv.SyncOutcome → Option Inv.RefreshStats
  | .ok _ stats => some stats
  | .failed _ => none

/-! # Theorems -/

/-- Ticks do not change the in-flight count when no timer is installed. -/
theorem sched_foldl_ticks (ms : Int) (hle : ms ≤ 0) :
    ∀ (evs : List Sched.Event), (∀ e ∈ evs, e = Sched.Event.tick) →
      ∀ n, List.foldl (Sched.step ms) n evs = n := by
  intro evs
  induction evs with
  | nil => intro _ n; rfl
  | cons e es ih =>
      intro hall n
      have he : e = Sched.Event.tick := hall e (List.mem_cons_self e es)
      have hstep : Sched.step ms n e = n := by
        subst he
        simp [Sched.step, Sched.timerPeriod, Option.isSome, not_lt.mpr hle]
      rw [List.foldl_cons, hstep]
      exact ih (fun x hx => hall x (List.mem_cons_of_mem e hx)) n

/-- C1: reconciling the same snapshot twice is not idempotent.  The
`createHost` INSERT omits the `id` column, so the first cycle persists
the host under a generated id; the second cycle's lookup by the
discovered id misses and inserts again: `hostsAdded = 1` on the second
call as well, and two rows exist after it. -/
theorem c1_second_reconcile_inserts_again :
    outcomeStats (Inv.refreshInventory (fun _ => false) ⟨[nodeHost], [plexWorkload]⟩ store0 5)
        = some ⟨1, 0, 1, 0⟩
  ∧ outcomeStats (Inv.refreshInventory (fun _ => false) ⟨[nodeHost], [plexWorkload]⟩
        (outcomeStore (Inv.refreshInventory (fun _ => false) ⟨[nodeHost], [plexWorkload]⟩
          store0 5)) 6)
        = some ⟨1, 0, 1, 0⟩
  ∧ (outcomeStore (Inv.refreshInventory (fun _ => false) ⟨[nodeHost], [plexWorkload]⟩
        (outcomeStore (Inv.refreshInventory (fun _ => false) ⟨[nodeHost], [plexWorkload]⟩
          store0 5)) 6)).hosts.length
        = 2
  ∧ (outcomeStore (Inv.refreshInventory (fun _ => false) ⟨[nodeHost], [plexWorkload]⟩
        (outcomeStore (Inv.refreshInventory (fun _ => false) ⟨[nodeHost], [plexWorkload]⟩
          store0 5)) 6)).workloads.length
        = 2 := by
  decide

/-- C2: a cycle is not atomic.  With two discovered hosts and a store
fault on the second host's statement, the cycle reports failure but the
first host's insert — issued through the pool rather than the
transaction client — stays visible: the tables are not as they were
before the cycle. -/
theorem c2_failed_cycle_leaves_partial_writes :
    Inv.refreshInventory (fun s => s == "22222222-2222-4222-8222-222222222222")
        ⟨[nodeHost, nodeHostB], []⟩ store0 7
      = .failed ⟨[{ nodeHost with id := dbGenId 0, created_at := 7, updated_at := 7 }], [], 1⟩
  ∧ (⟨[{ nodeHost with id := dbGenId 0, created_at := 7, updated_at := 7 }], [], 1⟩ : Store)
      ≠ store0 := by
  decide

/-- C3 counterexample: the Kubernetes discovery fails entirely while the
Proxmox discovery succeeds, yet the cycle answers with the error and
persists nothing — the successful source's entities are not applied. -/
theorem c3_failed_source_aborts_cycle :
    Api.syncInventoryRoute (.err "Kubernetes connection failed") true
        (.ok ⟨[pveHost], [plexWorkload]⟩) store0 5
      = .errorResp "Kubernetes connection failed" store0
  ∧ store0.hosts = [] ∧ store0.workloads = [] := by
  decide

/-- C3 amended: any available source's discovery failure aborts the whole
sync with an error and an untouched store; a source only contributes zero
entities without failing the cycle when the Proxmox connector is not
available at all, in which case the Kubernetes snapshot alone is merged
and persisted. -/
theorem c3_source_failure_aborts (k8sInv : Inventory) (pRes : Api.DiscResult)
    (msg msg2 : String) (avail : Bool) (st : Store) (now : Nat) :
    Api.syncInventoryRoute (.err msg) avail pRes st now = .errorResp msg st
  ∧ Api.syncInventoryRoute (.ok k8sInv) true (.err msg2) st now = .errorResp msg2 st
  ∧ Api.syncInventoryRoute (.ok k8sInv) false pRes st now
      = .ok k8sInv.hosts.length k8sInv.workloads.length
          (Inv.syncDiscoveredInventory k8sInv st now).1 := by
  refine ⟨rfl, rfl, ?_⟩
  simp [Api.syncInventoryRoute]

/-- C6 counterexample: with the default 60000 ms interval, two timer
ticks before any completion leave two reconciliation cycles running at
once — the second trigger was neither queued nor rejected. -/
theorem c6_two_cycles_run_concurrently :
    Sched.run 60000 [.tick, .tick] = 2 ∧ ¬Sched.run 60000 [.tick, .tick] ≤ 1 := by
  decide

/-- C6 amended: no mutual exclusion exists.  Whatever the number of
cycles already running, a timer tick (with an installed timer) and an
on-demand call each immediately start one more concurrent cycle;
nothing is queued and nothing is rejected. -/
theorem c6_triggers_always_start (ms : Int) (n : Nat) (hms : 0 < ms) :
    Sched.step ms n .tick = n + 1 ∧ Sched.step ms n .apiSync = n + 1 := by
  refine ⟨?_, rfl⟩
  simp [Sched.step, Sched.timerPeriod, hms]

/-- Witness for `c6_triggers_always_start` at interval 60000 with one
cycle already running. -/
theorem c6_triggers_always_start_witness :
    Sched.step 60000 1 .tick = 2 ∧ Sched.step 60000 1 .apiSync = 2 :=
  c6_triggers_always_start 60000 1 (by decide)

/-- C7: a non-positive configured sync interval installs no timer — so
ticks never occur and a tick event is a no-op, and any trace of ticks
alone leaves zero cycles, cycles starting only from the on-demand
trigger — while a positive interval installs a periodic timer with
exactly that period. -/
theorem c7_nonpositive_interval_disables_timer (ms : Int) (evs : List Sched.Event) :
    (ms ≤ 0 → Sched.timerPeriod ms = none
      ∧ (∀ n, Sched.step ms n .tick = n)
      ∧ ((∀ e ∈ evs, e = Sched.Event.tick) → Sched.run ms evs = 0))
  ∧ (0 < ms → Sched.timerPeriod ms = some ms) := by
  constructor
  · intro hle
    refine ⟨?_, ?_, ?_⟩
    · simp [Sched.timerPeriod, not_lt.mpr hle]
    · intro n
      simp [Sched.step, Sched.timerPeriod, Option.isSome, not_lt.mpr hle]
    · intro hall
      exact sched_foldl_ticks ms hle evs hall 0
  · intro hpos
    simp [Sched.timerPeriod, hpos]

/-- Witness for `c7_nonpositive_interval_disables_timer` at intervals 0,
-250 and 60000. -/
theorem c7_nonpositive_interval_disables_timer_witness :
    Sched.timerPeriod 0 = none
  ∧ Sched.run (-250) [.tick, .tick, .tick] = 0
  ∧ Sched.timerPeriod 60000 = some 60000 :=
  ⟨((c7_nonpositive_interval_disables_timer 0 []).1 (by decide)).1,
   ((c7_nonpositive_interval_disables_timer (-250) [.tick, .tick, .tick]).1 (by decide)).2.2
     (by decide),
   (c7_nonpositive_interval_disables_timer 60000 []).2 (by decide)⟩

/-- C10: a Proxmox VM or LXC workload is `healthy` exactly when the
backend reports the status string `running`; every other report (or a
missing status) yields `unknown`, and `unhealthy` is never produced. -/
theorem c10_health_mirrors_run_status (vm lxc : ProxmoxGuest) (node hostId : String)
    (cfg : Option (List (String × String))) (now : Nat) :
    ((convertVMToWorkload vm node hostId now).health_status = .healthy
        ↔ vm.status = some "running")
  ∧ (convertVMToWorkload vm node hostId now).health_status ≠ .unhealthy
  ∧ (vm.status ≠ some "running" →
        (convertVMToWorkload vm node hostId now).health_status = .unknown)
  ∧ ((convertLXCToWorkload lxc node hostId cfg now).health_status = .healthy
        ↔ lxc.status = some "running")
  ∧ (convertLXCToWorkload lxc node hostId cfg now).health_status ≠ .unhealthy
  ∧ (lxc.status ≠ some "running" →
        (convertLXCToWorkload lxc node hostId cfg now).health_status = .unknown) := by
  refine ⟨?_, ?_, ?_, ?_, ?_, ?_⟩
  · by_cases h : vm.status = some "running" <;> simp [convertVMToWorkload, h]
  · by_cases h : vm.status = some "running" <;> simp [convertVMToWorkload, h]
  · by_cases h : vm.status = some "running" <;> simp [convertVMToWorkload, h]
  · by_cases h : lxc.status = some "running" <;> simp [convertLXCToWorkload, h]
  · by_cases h : lxc.status = some "running" <;> simp [convertLXCToWorkload, h]
  · by_cases h : lxc.status = some "running" <;> simp [convertLXCToWorkload, h]

/-- Witness for `c10_health_mirrors_run_status` on a running VM and a
stopped LXC. -/
theorem c10_health_mirrors_run_status_witness :
    (convertVMToWorkload runningGuest "pve" "host-1" 3).health_status = .healthy
  ∧ (convertLXCToWorkload stoppedGuest "pve" "host-1" none 3).health_status = .unknown :=
  ⟨(c10_health_mirrors_run_status runningGuest stoppedGuest "pve" "host-1" none 3).1.mpr rfl,
   (c10_health_mirrors_run_status runningGuest stoppedGuest "pve" "host-1" none 3).2.2.2.2.2
     (by decide)⟩

/-- C5 counterexample: re-reconciling a workload whose discovered name
changed leaves the persisted name untouched — `updateWorkload` has no
SET branch for `name` (nor for `type`, `host_id` or `namespace`), so
not all non-identity fields are replaced. -/
theorem c5_workload_rename_not_replaced :
    Inv.refreshInventory (fun _ => false) ⟨[], [plexWorkloadRenamed]⟩ ⟨[], [plexWorkload], 3⟩ 9
      = .ok ⟨[], [plexWorkloadAfterUpdate], 3⟩ ⟨0, 0, 0, 1⟩
  ∧ plexWorkloadRenamed.name = "plex-media"
  ∧ plexWorkloadAfterUpdate.name = "plex"
  ∧ plexWorkloadAfterUpdate.name ≠ plexWorkloadRenamed.name := by
  decide

/-- C5 amended: when a cycle re-observes entities that already have
persisted rows, it updates them in place (nothing is added, `id` and
`created_at` are untouched, `updated_at` is set to now), but only these
fields are replaced: for hosts `name`, `status`, `last_seen_at`,
`addresses`, `metadata` and `tags` (not `type`, not `cluster`); for
workloads `status`, `health_status`, `spec`, `metadata` and
`last_updated_at` (not `name`, not `type`, not `host_id`, not
`namespace`). -/
theorem c5_update_replaces_exact_fields (h : Host) (w : Workload) (st : Store) (now : Nat)
    (rh : Host) (rw : Workload)
    (hh : Inv.getHostById st h.id = some rh)
    (hw : Inv.getWorkloadById st w.id = some rw) :
    Inv.refreshInventory (fun _ => false) ⟨[h], [w]⟩ st now
      = .ok (Inv.updateWorkload (Inv.updateHost st h.id (Inv.hostToUpdates h) now)
          w.id (Inv.workloadToUpdates w) now) ⟨0, 1, 0, 1⟩
  ∧ (∀ r : Host,
        (Inv.applyHostUpdates (Inv.hostToUpdates h) now r).id = r.id
      ∧ (Inv.applyHostUpdates (Inv.hostToUpdates h) now r).created_at = r.created_at
      ∧ (Inv.applyHostUpdates (Inv.hostToUpdates h) now r).type = r.type
      ∧ (Inv.applyHostUpdates (Inv.hostToUpdates h) now r).cluster = r.cluster
      ∧ (Inv.applyHostUpdates (Inv.hostToUpdates h) now r).name = h.name
      ∧ (Inv.applyHostUpdates (Inv.hostToUpdates h) now r).status = h.status
      ∧ (Inv.applyHostUpdates (Inv.hostToUpdates h) now r).last_seen_at = h.last_seen_at
      ∧ (Inv.applyHostUpdates (Inv.hostToUpdates h) now r).addresses = h.addresses
      ∧ (Inv.applyHostUpdates (Inv.hostToUpdates h) now r).metadata = h.metadata
      ∧ (Inv.applyHostUpdates (Inv.hostToUpdates h) now r).tags = h.tags
      ∧ (Inv.applyHostUpdates (Inv.hostToUpdates h) now r).updated_at = now)
  ∧ (∀ r : Workload,
        (Inv.applyWorkloadUpdates (Inv.workloadToUpdates w) now r).id = r.id
      ∧ (Inv.applyWorkloadUpdates (Inv.workloadToUpdates w) now r).created_at = r.created_at
      ∧ (Inv.applyWorkloadUpdates (Inv.workloadToUpdates w) now r).name = r.name
      ∧ (Inv.applyWorkloadUpdates (Inv.workloadToUpdates w) now r).type = r.type
      ∧ (Inv.applyWorkloadUpdates (Inv.workloadToUpdates w) now r).host_id = r.host_id
      ∧ (Inv.applyWorkloadUpdates (Inv.workloadToUpdates w) now r).nspace = r.nspace
      ∧ (Inv.applyWorkloadUpdates (Inv.workloadToUpdates w) now r).status = w.status
      ∧ (Inv.applyWorkloadUpdates (Inv.workloadToUpdates w) now r).health_status = w.health_status
      ∧ (Inv.applyWorkloadUpdates (Inv.workloadToUpdates w) now r).spec = w.spec
      ∧ (Inv.applyWorkloadUpdates (Inv.workloadToUpdates w) now r).metadata = w.metadata
      ∧ (Inv.applyWorkloadUpdates (Inv.workloadToUpdates w) now r).last_updated_at
          = w.last_updated_at
      ∧ (Inv.applyWorkloadUpdates (Inv.workloadToUpdates w) now r).updated_at = now) := by
  refine ⟨?_, fun r => ⟨rfl, rfl, rfl, rfl, rfl, rfl, rfl, rfl, rfl, rfl, rfl⟩,
    fun r => ⟨rfl, rfl, rfl, rfl, rfl, rfl, rfl, rfl, rfl, rfl, rfl, rfl⟩⟩
  have hw2 : Inv.getWorkloadById (Inv.updateHost st h.id (Inv.hostToUpdates h) now) w.id
      = some rw := hw
  simp [Inv.refreshInventory, Inv.refreshHostStep, Inv.refreshWorkloadStep, hh, hw2]

/-- Witness for `c5_update_replaces_exact_fields` on a concrete store
holding the `nodeHost` and `plexWorkload` rows. -/
theorem c5_update_replaces_exact_fields_witness :
    Inv.refreshInventory (fun _ => false) ⟨[nodeHost], [plexWorkloadRenamed]⟩
        ⟨[nodeHost], [plexWorkload], 3⟩ 9
      = .ok (Inv.updateWorkload
          (Inv.updateHost ⟨[nodeHost], [plexWorkload], 3⟩ nodeHost.id
            (Inv.hostToUpdates nodeHost) 9)
          plexWorkloadRenamed.id (Inv.workloadToUpdates plexWorkloadRenamed) 9) ⟨0, 1, 0, 1⟩
  ∧ (Inv.applyWorkloadUpdates (Inv.workloadToUpdates plexWorkloadRenamed) 9 plexWorkload).name
      = plexWorkload.name :=
  ⟨(c5_update_replaces_exact_fields nodeHost plexWorkloadRenamed ⟨[nodeHost], [plexWorkload], 3⟩ 9
      nodeHost plexWorkload (by decide) (by decide)).1,
   ((c5_update_replaces_exact_fields nodeHost plexWorkloadRenamed ⟨[nodeHost], [plexWorkload], 3⟩ 9
      nodeHost plexWorkload (by decide) (by decide)).2.2 plexWorkload).2.2.1⟩

/-- Every output of `hexDigit` is a lowercase hex digit (out-of-range
nibbles fall back to '0'). -/
theorem isHexLower_hexDigit (n : Nat) : isHexLower (hexDigit n) = true := by
  by_cases h : n < 16
  · have hfin : ∀ m : Fin 16, isHexLower (hexDigit m.val) = true := by decide
    exact hfin ⟨n, h⟩
  · unfold hexDigit
    rw [List.getD_eq_default]
    · rfl
    · have hlen : hexDigits.length = 16 := rfl
      omega

set_option maxRecDepth 8192 in
/-- Version masking: for any byte, `(b & 0x0f) | 0x50` has high nibble 5. -/
theorem version_nibble : ∀ a : Fin 256, hexDigit (((a.val &&& 15) ||| 80) / 16) = '5' := by
  decide

set_option maxRecDepth 8192 in
/-- Variant masking: for any byte, `(b & 0x3f) | 0x80` has high nibble
8, 9, a or b. -/
theorem variant_nibble : ∀ a : Fin 256,
    hexDigit (((a.val &&& 63) ||| 128) / 16) = '8'
  ∨ hexDigit (((a.val &&& 63) ||| 128) / 16) = '9'
  ∨ hexDigit (((a.val &&& 63) ||| 128) / 16) = 'a'
  ∨ hexDigit (((a.val &&& 63) ||| 128) / 16) = 'b' := by
  decide

set_option maxHeartbeats 1600000 in
set_option maxRecDepth 8192 in
/-- Character 14 of a derived id is the masked high nibble of byte 6. -/
theorem getDeterministicId_char14 (seed : String) :
    (getDeterministicId seed).data.getD 14 ' '
      = hexDigit ((((sha1State (utf8Encode seed)).h1 / 256 % 256 &&& 15) ||| 80) / 16) := rfl

set_option maxHeartbeats 1600000 in
set_option maxRecDepth 8192 in
/-- Character 19 of a derived id is the masked high nibble of byte 8. -/
theorem getDeterministicId_char19 (seed : String) :
    (getDeterministicId seed).data.getD 19 ' '
      = hexDigit ((((sha1State (utf8Encode seed)).h2 / 16777216 % 256 &&& 63) ||| 128) / 16) :=
  rfl

/-- Derived ids always carry the fixed version digit '5'. -/
theorem getDeterministicId_version (seed : String) :
    (getDeterministicId seed).data.getD 14 ' ' = '5' := by
  rw [getDeterministicId_char14]
  exact version_nibble ⟨(sha1State (utf8Encode seed)).h1 / 256 % 256, Nat.mod_lt _ (by norm_num)⟩

/-- Derived ids always carry an RFC 4122 variant digit. -/
theorem getDeterministicId_variant (seed : String) :
    (getDeterministicId seed).data.getD 19 ' ' = '8'
  ∨ (getDeterministicId seed).data.getD 19 ' ' = '9'
  ∨ (getDeterministicId seed).data.getD 19 ' ' = 'a'
  ∨ (getDeterministicId seed).data.getD 19 ' ' = 'b' := by
  rw [getDeterministicId_char19]
  exact variant_nibble
    ⟨(sha1State (utf8Encode seed)).h2 / 16777216 % 256, Nat.mod_lt _ (by norm_num)⟩

/-- The SHA-1 compression function emits wrapped 32-bit words. -/
theorem sha1Block_lt (st : Sha1State) (block : List Nat) :
    (sha1Block st block).h0 < 4294967296 ∧ (sha1Block st block).h1 < 4294967296
  ∧ (sha1Block st block).h2 < 4294967296 ∧ (sha1Block st block).h3 < 4294967296
  ∧ (sha1Block st block).h4 < 4294967296 := by
  refine ⟨?_, ?_, ?_, ?_, ?_⟩ <;> exact Nat.mod_lt _ (by norm_num)

/-- The final chaining state consists of 32-bit words. -/
theorem sha1State_lt (msg : List Nat) :
    (sha1State msg).h0 < 4294967296 ∧ (sha1State msg).h1 < 4294967296
  ∧ (sha1State msg).h2 < 4294967296 ∧ (sha1State msg).h3 < 4294967296
  ∧ (sha1State msg).h4 < 4294967296 := by
  suffices hfold : ∀ (bs : List (List Nat)) (st : Sha1State),
      st.h0 < 4294967296 ∧ st.h1 < 4294967296 ∧ st.h2 < 4294967296
        ∧ st.h3 < 4294967296 ∧ st.h4 < 4294967296 →
      (bs.foldl sha1Block st).h0 < 4294967296 ∧ (bs.foldl sha1Block st).h1 < 4294967296
        ∧ (bs.foldl sha1Block st).h2 < 4294967296 ∧ (bs.foldl sha1Block st).h3 < 4294967296
        ∧ (bs.foldl sha1Block st).h4 < 4294967296 by
    exact hfold _ initSha1 (by norm_num [initSha1])
  intro bs
  induction bs with
  | nil => intro st hst; exact hst
  | cons b rest ih =>
      intro st _
      rw [List.foldl_cons]
      exact ih (sha1Block st b) (sha1Block_lt st b)

set_option maxHeartbeats 1600000 in
set_option maxRecDepth 8192 in
/-- A derived id's characters are precisely `uuidCharsOfWords` applied to
the first four SHA-1 chaining words. -/
theorem getDeterministicId_data (seed : String) :
    (getDeterministicId seed).data
      = uuidCharsOfWords (sha1State (utf8Encode seed)).h0 (sha1State (utf8Encode seed)).h1
          (sha1State (utf8Encode seed)).h2 (sha1State (utf8Encode seed)).h3 := rfl

/-- C4 counterexample (negation of universal distinctness): the assigner
maps infinitely many key strings into the finite space of five 32-bit
chaining words, so two distinct natural keys with the same id exist —
universal injectivity cannot hold for a 128-bit digest-based assigner. -/
theorem c4_distinct_keys_can_collide :
    ∃ k1 k2 : String, k1 ≠ k2 ∧ getDeterministicId k1 = getDeterministicId k2 := by
  obtain ⟨k1, k2, hne, heq⟩ := Finite.exists_ne_map_eq_of_infinite
    (fun s : String =>
      ((⟨(sha1State (utf8Encode s)).h0, (sha1State_lt (utf8Encode s)).1⟩ : Fin 4294967296),
       (⟨(sha1State (utf8Encode s)).h1, (sha1State_lt (utf8Encode s)).2.1⟩ : Fin 4294967296),
       (⟨(sha1State (utf8Encode s)).h2, (sha1State_lt (utf8Encode s)).2.2.1⟩ : Fin 4294967296),
       (⟨(sha1State (utf8Encode s)).h3, (sha1State_lt (utf8Encode s)).2.2.2.1⟩ : Fin 4294967296),
       (⟨(sha1State (utf8Encode s)).h4, (sha1State_lt (utf8Encode s)).2.2.2.2⟩ : Fin 4294967296)))
  refine ⟨k1, k2, hne, ?_⟩
  have h0 : (sha1State (utf8Encode k1)).h0 = (sha1State (utf8Encode k2)).h0 :=
    congrArg (fun p => p.1.val) heq
  have h1 : (sha1State (utf8Encode k1)).h1 = (sha1State (utf8Encode k2)).h1 :=
    congrArg (fun p => p.2.1.val) heq
  have h2 : (sha1State (utf8Encode k1)).h2 = (sha1State (utf8Encode k2)).h2 :=
    congrArg (fun p => p.2.2.1.val) heq
  have h3 : (sha1State (utf8Encode k1)).h3 = (sha1State (utf8Encode k2)).h3 :=
    congrArg (fun p => p.2.2.2.1.val) heq
  have hdata : (getDeterministicId k1).data = (getDeterministicId k2).data := by
    rw [getDeterministicId_data, getDeterministicId_data, h0, h1, h2, h3]
  cases hid1 : getDeterministicId k1 with
  | mk data1 =>
      cases hid2 : getDeterministicId k2 with
      | mk data2 =>
          rw [hid1, hid2] at hdata
          exact congrArg String.mk hdata

set_option maxHeartbeats 1600000 in
set_option maxRecDepth 16384 in
/-- C4 amended: the identity assigner is a pure function of the natural
key (equal keys give equal ids) and every id it returns is UUID-shaped:
36 characters, dashes at positions 8/13/18/23, lowercase hex everywhere
else, with the version character fixed to '5' and the variant character
in 8/9/a/b.  Distinct keys give distinct ids only outside an
astronomically unlikely SHA-1 collision (see the counterexample for why
the universal form is unprovable), as the concrete distinct pair here
illustrates. -/
theorem c4_assigner_deterministic_and_uuid_shaped (k k' : String) (i : Nat)
    (hkk : k = k') (hi : i ∈ hexPositions) :
    getDeterministicId k = getDeterministicId k'
  ∧ (getDeterministicId k).data.length = 36
  ∧ (getDeterministicId k).data.getD 8 ' ' = '-'
  ∧ (getDeterministicId k).data.getD 13 ' ' = '-'
  ∧ (getDeterministicId k).data.getD 18 ' ' = '-'
  ∧ (getDeterministicId k).data.getD 23 ' ' = '-'
  ∧ (getDeterministicId k).data.getD 14 ' ' = '5'
  ∧ ((getDeterministicId k).data.getD 19 ' ' = '8'
      ∨ (getDeterministicId k).data.getD 19 ' ' = '9'
      ∨ (getDeterministicId k).data.getD 19 ' ' = 'a'
      ∨ (getDeterministicId k).data.getD 19 ' ' = 'b')
  ∧ isHexLower ((getDeterministicId k).data.getD i ' ') = true
  ∧ getDeterministicId "proxmox-node:homelab:pve"
      ≠ getDeterministicId "proxmox-node:homelab:pve2" := by
  subst hkk
  refine ⟨rfl, by rw [getDeterministicId_data]; rfl,
    by rw [getDeterministicId_data]; rfl, by rw [getDeterministicId_data]; rfl,
    by rw [getDeterministicId_data]; rfl, by rw [getDeterministicId_data]; rfl,
    getDeterministicId_version k, getDeterministicId_variant k, ?_, by decide⟩
  have hi' : i ∈ ([0, 1, 2, 3, 4, 5, 6, 7, 9, 10, 11, 12, 14, 15, 16, 17,
      19, 20, 21, 22, 24, 25, 26, 27, 28, 29, 30, 31, 32, 33, 34, 35] : List Nat) := hi
  rw [getDeterministicId_data]
  fin_cases hi' <;> exact isHexLower_hexDigit _

/-- Witness for `c4_assigner_deterministic_and_uuid_shaped` at the
`"pve"` cluster-node natural key and hex position 0. -/
theorem c4_assigner_deterministic_and_uuid_shaped_witness :
    getDeterministicId "proxmox-node:homelab:pve" = getDeterministicId "proxmox-node:homelab:pve"
  ∧ isHexLower ((getDeterministicId "proxmox-node:homelab:pve").data.getD 0 ' ') = true :=
  ⟨(c4_assigner_deterministic_and_uuid_shaped "proxmox-node:homelab:pve"
      "proxmox-node:homelab:pve" 0 rfl (by decide)).1,
   (c4_assigner_deterministic_and_uuid_shaped "proxmox-node:homelab:pve"
      "proxmox-node:homelab:pve" 0 rfl (by decide)).2.2.2.2.2.2.2.2.1⟩

/-- The anchored UUID-v4 check fails whenever character 14 is not '4'. -/
theorem uuidCheckAll_false (cs : List Char) (h : cs.getD 14 ' ' ≠ '4') :
    ((List.range 36).all fun i => Api.uuidCharOk i (cs.getD i ' ')) = false := by
  cases hall : (List.range 36).all fun i => Api.uuidCharOk i (cs.getD i ' ') with
  | false => rfl
  | true =>
      exfalso
      have h14 : Api.uuidCharOk 14 (cs.getD 14 ' ') = true := by
        simpa using List.all_eq_true.mp hall 14 (by decide)
      have hred : Api.uuidCharOk 14 (cs.getD 14 ' ') = (cs.getD 14 ' ' == '4') := rfl
      rw [hred] at h14
      exact h (eq_of_beq h14)

/-- C9: every id the Proxmox connector derives has version character '5'
and an RFC 4122 variant character, while the inventory detail routes
validate against the version-4-only pattern — so both
`GET /hosts/:id` and `GET /workloads/:id` answer 400 for such an id
without querying the store, whatever the store contains. -/
theorem c9_connector_ids_rejected_by_routes (seed : String) (st : Store) :
    (getDeterministicId seed).data.getD 14 ' ' = '5'
  ∧ ((getDeterministicId seed).data.getD 19 ' ' = '8'
      ∨ (getDeterministicId seed).data.getD 19 ' ' = '9'
      ∨ (getDeterministicId seed).data.getD 19 ' ' = 'a'
      ∨ (getDeterministicId seed).data.getD 19 ' ' = 'b')
  ∧ Api.isValidUUID (getDeterministicId seed) = false
  ∧ Api.getHostByIdRoute st (getDeterministicId seed) = (.badRequest, false)
  ∧ Api.getWorkloadByIdRoute st (getDeterministicId seed) = (.badRequest, false) := by
  have hfalse : Api.isValidUUID (getDeterministicId seed) = false := by
    unfold Api.isValidUUID
    rw [uuidCheckAll_false _ (by rw [getDeterministicId_version seed]; decide)]
    simp
  exact ⟨getDeterministicId_version seed, getDeterministicId_variant seed, hfalse,
    by simp [Api.getHostByIdRoute, hfalse], by simp [Api.getWorkloadByIdRoute, hfalse]⟩

/-- In an object without duplicate keys, reading a key that is present
returns its value. -/
theorem lookupAssoc_of_mem_nodup : ∀ {l : List (String × String)} {k v : String},
    (l.map Prod.fst).Nodup → (k, v) ∈ l → lookupAssoc l k = some v := by
  intro l
  induction l with
  | nil => intro k v _ hmem; cases hmem
  | cons p rest ih =>
      intro k v hnd hmem
      obtain ⟨a, b⟩ := p
      have hnd2 := List.nodup_cons.mp
        (show (Prod.fst (a, b) :: rest.map Prod.fst).Nodup from hnd)
      rcases List.mem_cons.mp hmem with heq | hmem'
      · cases heq
        simp [lookupAssoc]
      · have hne : a ≠ k := by
          intro hak
          apply hnd2.1
          subst hak
          exact List.mem_map.mpr ⟨(a, v), hmem', rfl⟩
        have hbeq : (a == k) = false := beq_eq_false_iff_ne.mpr hne
        simp only [lookupAssoc, hbeq, Bool.false_eq_true, if_false]
        exact ih hnd2.2 hmem'

/-- Whatever `netEntry` emits for a key is stored under that key's
target (`lan` for `net0`, the interface name otherwise). -/
theorem netEntry_fst {cfg : List (String × String)} {k : String} {y : String × String}
    (h : netEntry cfg k = some y) : y.1 = targetKey k := by
  unfold netEntry at h
  split at h
  · cases h
  · split at h
    · cases h
    · split at h
      · cases h
      · cases h; rfl

/-- A present static (non-empty, non-DHCP) ip yields the stripped
address under the target key. -/
theorem netEntry_static {cfg : List (String × String)} {k v ip : String}
    (hnd : (cfg.map Prod.fst).Nodup) (hmem : (k, v) ∈ cfg)
    (hip : lookupLast (parseKv v) "ip" = some ip)
    (hne : ip ≠ "") (hdh : jsToLower ip ≠ "dhcp") :
    netEntry cfg k = some (targetKey k, cidrStrip ip) := by
  have hbne : (ip == "") = false := beq_eq_false_iff_ne.mpr hne
  have hbdh : (jsToLower ip == "dhcp") = false := beq_eq_false_iff_ne.mpr hdh
  unfold netEntry
  rw [lookupAssoc_of_mem_nodup hnd hmem]
  split
  · rename_i heq; cases heq
  · rename_i nc heq
    cases heq
    rw [hip]
    split
    · rename_i heq2; cases heq2
    · rename_i ip2 heq2
      cases heq2
      rw [hbne, hbdh]
      rfl

/-- A DHCP-assigned ip contributes nothing. -/
theorem netEntry_dhcp {cfg : List (String × String)} {k v : String}
    (hnd : (cfg.map Prod.fst).Nodup) (hmem : (k, v) ∈ cfg)
    (hip : lookupLast (parseKv v) "ip" = some "dhcp") :
    netEntry cfg k = none := by
  unfold netEntry
  rw [lookupAssoc_of_mem_nodup hnd hmem]
  split
  · rename_i heq; cases heq
  · rename_i nc heq
    cases heq
    rw [hip]
    rfl

/-- If no listed key contributes an entry under `t`, the parsed address
object holds nothing under `t`. -/
theorem lookupAssoc_filterMap_none {l : List String} {f : String → Option (String × String)}
    {t : String} (h : ∀ k ∈ l, ∀ y, f k = some y → ¬y.1 = t) :
    lookupAssoc (l.filterMap f) t = none := by
  induction l with
  | nil => rfl
  | cons a rest ih =>
      have hrest := fun k hk y hy => h k (List.mem_cons_of_mem a hk) y hy
      cases hfa : f a with
      | none =>
          simp only [List.filterMap_cons, hfa]
          exact ih hrest
      | some y =>
          obtain ⟨t', x⟩ := y
          have hne : t' ≠ t := by simpa using h a (List.mem_cons_self a rest) (t', x) hfa
          have hbeq : (t' == t) = false := beq_eq_false_iff_ne.mpr hne
          simp only [List.filterMap_cons, hfa, lookupAssoc, hbeq, Bool.false_eq_true, if_false]
          exact ih hrest

/-- If `k` is the unique listed key contributing an entry under `t`, the
parsed address object stores `k`'s value there. -/
theorem lookupAssoc_filterMap_mem : ∀ {l : List String} {f : String → Option (String × String)}
    {k t x : String}, l.Nodup → k ∈ l → f k = some (t, x) →
    (∀ k' ∈ l, ∀ y, f k' = some y → y.1 = t → k' = k) →
    lookupAssoc (l.filterMap f) t = some x := by
  intro l
  induction l with
  | nil => intro f k t x _ hk; cases hk
  | cons a rest ih =>
      intro f k t x hnd hk hf huniq
      have hnd2 := List.nodup_cons.mp hnd
      have hrestuniq : ∀ k' ∈ rest, ∀ y, f k' = some y → y.1 = t → k' = k :=
        fun k' hk' y hy ht => huniq k' (List.mem_cons_of_mem a hk') y hy ht
      rcases List.mem_cons.mp hk with rfl | hk'
      · simp only [List.filterMap_cons, hf]
        simp [lookupAssoc]
      · have hak : a ≠ k := fun h => hnd2.1 (h ▸ hk')
        cases hfa : f a with
        | none =>
            simp only [List.filterMap_cons, hfa]
            exact ih hnd2.2 hk' hf hrestuniq
        | some y =>
            obtain ⟨t', x'⟩ := y
            have hne : t' ≠ t := by
              intro hteq
              exact hak (huniq a (List.mem_cons_self a rest) (t', x') hfa (by simpa using hteq))
            have hbeq : (t' == t) = false := beq_eq_false_iff_ne.mpr hne
            simp only [List.filterMap_cons, hfa, lookupAssoc, hbeq, Bool.false_eq_true, if_false]
            exact ih hnd2.2 hk' hf hrestuniq

/-- The `net0 → lan` renaming is injective over interface keys: `lan`
itself is not a `netN` key. -/
theorem targetKey_inj {a b : String} (ha : isNetKey a = true) (hb : isNetKey b = true)
    (h : targetKey a = targetKey b) : a = b := by
  unfold targetKey at h
  cases hab : a == "net0" <;> cases hbb : b == "net0"
  · rw [hab, hbb] at h
    simpa using h
  · rw [hab, hbb] at h
    simp at h
    subst h
    exact absurd ha (by decide)
  · rw [hab, hbb] at h
    simp at h
    subst h
    exact absurd hb (by decide)
  · exact (eq_of_beq hab).trans (eq_of_beq hbb).symm

/-- Static addresses land in the parsed object: a non-empty, non-DHCP
`ip=` entry for interface `k` is stored CIDR-stripped under
`targetKey k`. -/
theorem parseNetworkAddresses_static {cfg : List (String × String)} {k v ip : String}
    (hnd : (cfg.map Prod.fst).Nodup) (hmem : (k, v) ∈ cfg) (hk : isNetKey k = true)
    (hip : lookupLast (parseKv v) "ip" = some ip)
    (hne : ip ≠ "") (hdh : jsToLower ip ≠ "dhcp") :
    lookupAssoc (parseNetworkAddresses (some cfg)) (targetKey k) = some (cidrStrip ip) := by
  unfold parseNetworkAddresses
  have hperm := List.perm_insertionSort (· < ·) ((cfg.map Prod.fst).filter isNetKey)
  apply lookupAssoc_filterMap_mem
  · exact hperm.nodup_iff.mpr (hnd.filter _)
  · exact hperm.mem_iff.mpr (List.mem_filter.mpr ⟨List.mem_map.mpr ⟨(k, v), hmem, rfl⟩, hk⟩)
  · exact netEntry_static hnd hmem hip hne hdh
  · intro k' hk' y hy ht
    have hk'net : isNetKey k' = true := (List.mem_filter.mp (hperm.mem_iff.mp hk')).2
    exact targetKey_inj hk'net hk ((netEntry_fst hy).symm.trans ht)

/-- DHCP exclusion: an interface whose `ip=` entry is `dhcp` leaves no
address under its target key. -/
theorem parseNetworkAddresses_dhcp {cfg : List (String × String)} {k v : String}
    (hnd : (cfg.map Prod.fst).Nodup) (hmem : (k, v) ∈ cfg) (hk : isNetKey k = true)
    (hip : lookupLast (parseKv v) "ip" = some "dhcp") :
    lookupAssoc (parseNetworkAddresses (some cfg)) (targetKey k) = none := by
  unfold parseNetworkAddresses
  have hperm := List.perm_insertionSort (· < ·) ((cfg.map Prod.fst).filter isNetKey)
  apply lookupAssoc_filterMap_none
  intro k' hk' y hy ht
  have hk'net : isNetKey k' = true := (List.mem_filter.mp (hperm.mem_iff.mp hk')).2
  have hkk : k' = k := targetKey_inj hk'net hk ((netEntry_fst hy).symm.trans ht)
  subst hkk
  rw [netEntry_dhcp hnd hmem hip] at hy
  cases hy

/-- C8: the LXC workload id is derived from source kind, node and vmid
only — any two network configurations (and clock values) yield the same
id — while address parsing skips interfaces whose `ip` is `dhcp`,
strips CIDR suffixes from static addresses, and maps `net0` to the
`lan` key. -/
theorem c8_dhcp_and_cidr_never_touch_identity (lxc : ProxmoxGuest) (node hostId : String)
    (cfg cfg2 : List (String × String)) (now now2 : Nat) (k v kd vd ip : String)
    (hnd : (cfg.map Prod.fst).Nodup)
    (hmem : (k, v) ∈ cfg) (hk : isNetKey k = true)
    (hip : lookupLast (parseKv v) "ip" = some ip) (hne : ip ≠ "")
    (hdh : jsToLower ip ≠ "dhcp")
    (hmemd : (kd, vd) ∈ cfg) (hkd : isNetKey kd = true)
    (hipd : lookupLast (parseKv vd) "ip" = some "dhcp") :
    (convertLXCToWorkload lxc node hostId (some cfg) now).id
        = (convertLXCToWorkload lxc node hostId (some cfg2) now2).id
  ∧ (convertLXCToWorkload lxc node hostId (some cfg) now).id
        = getDeterministicId ("proxmox-lxc:" ++ node ++ ":" ++ toString lxc.vmid)
  ∧ lookupAssoc (parseNetworkAddresses (some cfg)) (targetKey k) = some (cidrStrip ip)
  ∧ lookupAssoc (parseNetworkAddresses (some cfg)) (targetKey kd) = none
  ∧ targetKey "net0" = "lan"
  ∧ cidrStrip "192.168.1.100/24" = "192.168.1.100" :=
  ⟨rfl, rfl,
   parseNetworkAddresses_static hnd hmem hk hip hne hdh,
   parseNetworkAddresses_dhcp hnd hmemd hkd hipd,
   rfl, rfl⟩

/-- Witness for `c8_dhcp_and_cidr_never_touch_identity` on the test
suite's two-interface configuration (static `net0`, DHCP `net1`). -/
theorem c8_dhcp_and_cidr_never_touch_identity_witness :
    (convertLXCToWorkload runningGuest "pve" "host-1"
        (some [("net0", "name=eth0,bridge=vmbr0,ip=192.168.1.100/24,gw=192.168.1.1"),
               ("net1", "name=eth1,bridge=vmbr1,ip=dhcp")]) 4).id
      = (convertLXCToWorkload runningGuest "pve" "host-1"
          (some [("net0", "name=eth0,bridge=vmbr0,ip=10.0.0.7/16,gw=10.0.0.1")]) 9).id
  ∧ lookupAssoc (parseNetworkAddresses
        (some [("net0", "name=eth0,bridge=vmbr0,ip=192.168.1.100/24,gw=192.168.1.1"),
               ("net1", "name=eth1,bridge=vmbr1,ip=dhcp")])) "lan" = some "192.168.1.100"
  ∧ lookupAssoc (parseNetworkAddresses
        (some [("net0", "name=eth0,bridge=vmbr0,ip=192.168.1.100/24,gw=192.168.1.1"),
               ("net1", "name=eth1,bridge=vmbr1,ip=dhcp")])) "net1" = none := by
  have h := c8_dhcp_and_cidr_never_touch_identity runningGuest "pve" "host-1"
    [("net0", "name=eth0,bridge=vmbr0,ip=192.168.1.100/24,gw=192.168.1.1"),
     ("net1", "name=eth1,bridge=vmbr1,ip=dhcp")]
    [("net0", "name=eth0,bridge=vmbr0,ip=10.0.0.7/16,gw=10.0.0.1")] 4 9
    "net0" "name=eth0,bridge=vmbr0,ip=192.168.1.100/24,gw=192.168.1.1"
    "net1" "name=eth1,bridge=vmbr1,ip=dhcp" "192.168.1.100/24"
    (by decide) (by decide) (by decide) (by decide) (by decide) (by decide)
    (by decide) (by decide) (by decide)
  exact ⟨h.1, h.2.2.1, h.2.2.2.1⟩

end MissionControl
